import Mathlib

/-!
Verification of the healthcare lead-discovery agent
(src/autonomous-agent.js and src/unnamed/part_000).

The JavaScript source is shallowly embedded: every method that the claims
touch is translated into an executable Lean definition over explicit data
structures.  External effects (the Exa search call, the mock Notion store,
the GitHub/Railway strategies, clocks and random ids) are passed in as
explicit parameters, so each code path of the source is a value of the
corresponding parameter.  JavaScript strings are modelled as Lean strings
over their characters; truthiness of a string is emptiness, and a missing
object field is an Option that is none.
-/

namespace HealthcareAgent

/-- JavaScript whitespace class as used by the regexes in the source
(space, tab, newline, carriage return, vertical tab, form feed). -/
def isWsJS (c : Char) : Bool :=
  c = ' ' || c = '\t' || c = '\n' || c = '\r' || c = '\x0b' || c = '\x0c'

/-- JavaScript string-or-default idiom s || d for strings
(empty string is falsy). -/
def jsOr (s d : String) : String := if s = "" then d else s

/-- JavaScript field-or-default idiom o.f || d where the field may be
absent (undefined) or the empty string. -/
def jsOrOpt (o : Option String) (d : String) : String :=
  match o with
  | none => d
  | some s => if s = "" then d else s

/-- A JavaScript value that the source stores in the services, treatments
and specializations fields: absent, a string, or an array of strings. -/
inductive SField where
  | undef : SField
  | str : String → SField
  | arr : List String → SField
deriving DecidableEq, Repr

/-- The structured data returned by searchWithExa, i.e. by
basicContentAnalysis (src/autonomous-agent.js lines 328-343) or by
extractHealthcareData (lines 185-207).  content_analyzed is only present
on the extractHealthcareData path, hence an Option. -/
structure ExaData where
  company : String := ""
  phone : String := ""
  email : String := ""
  location : String := ""
  services : List String := []
  treatments : List String := []
  specializations : List String := []
  practice_type : String := ""
  content_analyzed : Option Nat := none
deriving DecidableEq, Repr

/-- calculateLeadScore (src/autonomous-agent.js lines 314-326, identical in
src/unnamed/part_000 lines 491-503): base 50, capped additive bonuses, the
result clamped from above by 100.  The undefined content_analyzed field
compares as false against 1000, exactly like the none case here. -/
def calculateLeadScore (d : ExaData) : Nat :=
  let score : Nat := 50
  let score := if d.services.length > 0 then score + min (d.services.length * 5) 25 else score
  let score := if d.treatments.length > 0 then score + min (d.treatments.length * 3) 20 else score
  let score := if d.phone ≠ "" then score + 10 else score
  let score := if d.email ≠ "" then score + 10 else score
  let score := if d.location ≠ "" then score + 5 else score
  let score := if d.specializations.length > 0 then score + 5 else score
  let score := match d.content_analyzed with
    | some n => if n > 1000 then score + 5 else score
    | none => score
  min score 100

/-- Per-signal bonus for services, as the spec words it: up to +25. -/
def servicesBonus (d : ExaData) : Nat :=
  if d.services.length > 0 then min (d.services.length * 5) 25 else 0

/-- Per-signal bonus for treatments, as the spec words it: up to +20. -/
def treatmentsBonus (d : ExaData) : Nat :=
  if d.treatments.length > 0 then min (d.treatments.length * 3) 20 else 0

/-- Presence bonus for the phone field: +10. -/
def phoneBonus (d : ExaData) : Nat := if d.phone ≠ "" then 10 else 0

/-- Presence bonus for the email field: +10. -/
def emailBonus (d : ExaData) : Nat := if d.email ≠ "" then 10 else 0

/-- Presence bonus for the location field: +5. -/
def locationBonus (d : ExaData) : Nat := if d.location ≠ "" then 5 else 0

/-- Bonus for a non-empty specializations list: +5. -/
def specializationsBonus (d : ExaData) : Nat :=
  if d.specializations.length > 0 then 5 else 0

/-- Rich-content bonus: +5 when more than 1000 characters were analyzed. -/
def richContentBonus (d : ExaData) : Nat :=
  match d.content_analyzed with
  | some n => if n > 1000 then 5 else 0
  | none => 0

/-- The scoring function as the spec describes it: base 50 plus the seven
capped per-signal contributions, clamped to at most 100. -/
def leadScoreSpec (d : ExaData) : Nat :=
  min (50 + servicesBonus d + treatmentsBonus d + phoneBonus d + emailBonus d
    + locationBonus d + specializationsBonus d + richContentBonus d) 100

/-- A JavaScript object holding the lead-record fields that the Notion
pipeline reads and writes.  A field that a given object does not carry is
none (undefined); services, treatments and specializations may be absent,
a string or an array, matching the dynamic typing of the source. -/
structure NotionObj where
  company : Option String := none
  doctor : Option String := none
  phone : Option String := none
  email : Option String := none
  location : Option String := none
  url : Option String := none
  website : Option String := none
  practiceId : Option String := none
  practice_id : Option String := none
  status : Option String := none
  practice_type : Option String := none
  domain : Option String := none
  services : SField := .undef
  treatments : SField := .undef
  specializations : SField := .undef
  lead_score : Option Int := none
  exa_enhanced : Option Bool := none
  scraped_at : Option String := none
  last_updated : Option String := none
  created_at : Option String := none
  fallback_reason : Option String := none
  error : Option String := none
deriving DecidableEq, Repr

/-- Take the first n characters, the substring(0, n) of the source.
Character-list based so that proofs and concrete evaluation go through the
kernel. -/
def strTake (s : String) (n : Nat) : String := String.mk (s.data.take n)

/-- Drop the first n characters of a string. -/
def strDrop (s : String) (n : Nat) : String := String.mk (s.data.drop n)

/-- Does the string start with the given literal (the anchored regexes of
the source)? -/
def strStarts (s p : String) : Bool := List.isPrefixOf p.data s.data

/-- Does the string end with the given literal (the dollar-anchored
regexes of the source)? -/
def strEnds (s p : String) : Bool := List.isPrefixOf p.data.reverse s.data.reverse

/-- JavaScript String.prototype.trim: whitespace removed from both
ends. -/
def trimJS (s : String) : String :=
  String.mk (((s.data.dropWhile isWsJS).reverse.dropWhile isWsJS).reverse)

/-- The sanitize helper of validateNotionData (src/autonomous-agent.js
lines 537-544): newlines, carriage returns and tabs become spaces,
non-printable characters are removed, the result is trimmed and truncated
to 2000 characters. -/
def sanitizeStr (s : String) : String :=
  if s = "" then ""
  else
    strTake (trimJS (String.mk
      ((s.data.map (fun c => if c = '\n' || c = '\r' || c = '\t' then ' ' else c)).filter
        (fun c => 0x20 ≤ c.toNat && c.toNat ≤ 0x7E)))) 2000

/-- sanitize applied to a possibly-absent field: undefined is falsy, so the
source returns the empty string for it. -/
def sanitize (o : Option String) : String := sanitizeStr (o.getD "")

/-- JavaScript String.prototype.split on a character class: consecutive
separators yield empty pieces and the empty string yields one empty
piece. -/
def splitChars (p : Char → Bool) : List Char → List (List Char)
  | [] => [[]]
  | c :: rest =>
    let r := splitChars p rest
    if p c then [] :: r
    else
      match r with
      | [] => [[c]]
      | h :: t2 => (c :: h) :: t2

/-- String-level split on a character predicate. -/
def strSplit (s : String) (p : Char → Bool) : List String :=
  (splitChars p s.data).map String.mk

/-- The email regex of validateNotionData: one or more characters that are
neither whitespace nor an at sign, an at sign, then a domain of the same
character class containing an interior dot. -/
def emailRegexTest (s : String) : Bool :=
  match strSplit s (fun c => c = '@') with
  | [lpart, dpart] =>
    lpart ≠ "" && lpart.data.all (fun c => !(isWsJS c)) &&
      dpart.data.all (fun c => !(isWsJS c)) && ((dpart.data.drop 1).dropLast.contains '.')
  | _ => false

/-- validateEmail (lines 546-550): an absent or empty value gives the empty
string; otherwise the value is kept only when it passes the regex. -/
def validateEmail (o : Option String) : String :=
  match o with
  | none => ""
  | some email => if email = "" then "" else if emailRegexTest email then email else ""

/-- validatePhone (lines 552-556): strip everything that is not a plus
sign, digit, whitespace, parenthesis or hyphen; keep the cleaned string
only when at least 10 characters remain. -/
def validatePhone (o : Option String) : String :=
  match o with
  | none => ""
  | some phone =>
    if phone = "" then ""
    else
      let cleanPhone := String.mk (phone.data.filter
        (fun c => c = '+' || c.isDigit || isWsJS c || c = '(' || c = ')' || c = '-'))
      if 10 ≤ cleanPhone.length then cleanPhone else ""

/-- The anchored scheme-stripping regex replace(httpOrHttpsScheme, empty)
used by validateUrl and the scrape fallback. -/
def stripHttpScheme (s : String) : String :=
  if strStarts s "https://" then strDrop s 8
  else if strStarts s "http://" then strDrop s 7
  else s

/-- Approximation of the host URL constructor used as a yes/no parse test:
a string parses when it carries an explicit http or https scheme.  For
scheme-prefixed inputs both branches of validateUrl return the same
string, so the theorems below do not depend on this approximation. -/
def urlParses (s : String) : Bool :=
  strStarts s "https://" || strStarts s "http://"

/-- validateUrl (lines 558-566): absent or empty gives the empty string;
a parseable URL is kept; anything else is re-prefixed with https after
stripping any explicit scheme. -/
def validateUrl (o : Option String) : String :=
  match o with
  | none => ""
  | some u =>
    if u = "" then ""
    else if urlParses u then u
    else "https://" ++ stripHttpScheme u

/-- parseInt(lead_score) || 50 of validateNotionData: an absent field
parses to NaN which the or-default turns into 50, and a zero value is
falsy and also becomes 50. -/
def parseLeadScoreJS (o : Option Int) : Int :=
  match o with
  | none => 50
  | some v => if v = 0 then 50 else v

/-- validateNotionData (src/autonomous-agent.js lines 535-598, identical in
src/unnamed/part_000 lines 712-775).  nowIso stands for the
new Date().toISOString() calls.  The returned object carries exactly the
keys the source constructs; in particular it has website but no url,
practice_id but no practiceId, and joined strings for the three list
fields. -/
def validateNotionData (pd : NotionObj) (nowIso : String) : NotionObj :=
  { company := some (jsOr (sanitize pd.company) "Healthcare Practice")
    phone := some (validatePhone pd.phone)
    email := some (validateEmail pd.email)
    location := some (jsOr (sanitize pd.location) "Healthcare Location")
    website := some (validateUrl pd.url)
    practice_id := some (sanitize pd.practiceId)
    status := some "Lead Captured"
    practice_type := some (jsOr (sanitize pd.practice_type) "healthcare")
    services := .str (match pd.services with
      | .arr l => strTake (String.intercalate ", " (l.map sanitizeStr)) 1000
      | _ => "Healthcare Services")
    treatments := .str (match pd.treatments with
      | .arr l => strTake (String.intercalate ", " (l.map sanitizeStr)) 1000
      | _ => "Consultation")
    specializations := .str (match pd.specializations with
      | .arr l => strTake (String.intercalate ", " (l.map sanitizeStr)) 500
      | _ => "General Healthcare")
    lead_score := some (min (max (parseLeadScoreJS pd.lead_score) 0) 100)
    exa_enhanced := some (pd.exa_enhanced.getD false)
    domain := some (sanitize pd.domain)
    scraped_at := some (jsOrOpt pd.scraped_at nowIso)
    last_updated := some nowIso }

/-- The result object shape returned by attemptNotionStorage,
createFallbackNotionRecord and storeLeadInNotion.  Absent boolean flags
are false, matching JavaScript truthiness of undefined. -/
structure NotionStoreResult where
  success : Bool
  leadId : String := ""
  record : Option NotionObj := none
  is_fallback : Bool := false
  is_emergency_fallback : Bool := false
  error : Option String := none
deriving DecidableEq, Repr

/-- attemptNotionStorage (src/autonomous-agent.js lines 600-624): the mock
store call resolves when Math.random() exceeds 0.3 and rejects with a rate
limit error otherwise; the rejection is caught inside the method, which
then returns a failure object.  The random draw is the storeOk parameter
and the id components now and rand stand for Date.now() and the random
suffix. -/
def attemptNotionStorage (validatedData : NotionObj) (storeOk : Bool) (now : Nat)
    (rand : String) : NotionStoreResult :=
  if storeOk then
    { success := true
      leadId := "notion_" ++ toString now ++ "_" ++ rand
      record := some validatedData }
  else
    { success := false, error := some "Notion API rate limit exceeded" }

/-- createFallbackNotionRecord (src/autonomous-agent.js lines 626-651): a
local record built from whichever object is passed in.  Note that it reads
the raw-record keys url and practiceId and expects services to be an
array, so data already validated (which carries website, practice_id and a
joined services string) is only partially carried over. -/
def createFallbackNotionRecord (practiceData : NotionObj) (now : Nat) (nowIso rand : String) :
    NotionStoreResult :=
  let fallbackRecord : NotionObj :=
    { company := some (jsOrOpt practiceData.company "Healthcare Practice")
      doctor := some (jsOrOpt practiceData.doctor "Dr. Smith")
      phone := some (practiceData.phone.getD "")
      email := some (practiceData.email.getD "")
      location := some (jsOrOpt practiceData.location "Healthcare Location")
      website := some (practiceData.url.getD "")
      practice_id := some (jsOrOpt practiceData.practiceId ("practice_" ++ toString now))
      status := some "Fallback Record"
      services := .str (match practiceData.services with
        | .arr l => String.intercalate ", " l
        | _ => "Healthcare Services")
      created_at := some nowIso
      fallback_reason := some "Notion API unavailable - continuing workflow" }
  { success := true
    leadId := "fallback_" ++ toString now ++ "_" ++ rand
    record := some fallbackRecord
    is_fallback := true }

/-- storeLeadInNotion (src/autonomous-agent.js lines 506-533): validate,
attempt the store call, and on a failed attempt return the fallback record
built from the validated data.  The surrounding catch block is
unreachable because validateNotionData, attemptNotionStorage and
createFallbackNotionRecord are all total, so the method never throws. -/
def storeLeadInNotion (practiceData : NotionObj) (storeOk : Bool) (now : Nat)
    (nowIso rand : String) : NotionStoreResult :=
  let validatedData := validateNotionData practiceData nowIso
  let notionResult := attemptNotionStorage validatedData storeOk now rand
  if notionResult.success then notionResult
  else createFallbackNotionRecord validatedData now nowIso rand

/-- A concrete input record whose services field is an array of two
entries, used to exercise the fallback path of storeLeadInNotion. -/
def sampleLeadWithServices : NotionObj :=
  { company := some "Acme Clinic", services := .arr ["Dental Implants", "Botox"] }

/-- A concrete input record carrying a url and a practiceId, used to
exercise re-validation. -/
def sampleLeadWithUrl : NotionObj :=
  { company := some "Acme Clinic", url := some "https://a.com",
    practiceId := some "acme-clinic-123456" }

/-- Does the pattern occur as a contiguous run anywhere in the list
(JavaScript String.prototype.includes)? -/
def hasSub (pat : List Char) : List Char → Bool
  | [] => List.isPrefixOf pat []
  | c :: rest => List.isPrefixOf pat (c :: rest) || hasSub pat rest

/-- JavaScript charAt(0).toUpperCase() + slice(1). -/
def capitalizeJS (s : String) : String :=
  match s.data with
  | [] => ""
  | c :: rest => String.mk (c.toUpper :: rest)

/-- JavaScript String.prototype.replace with a plain string pattern: only
the first occurrence is removed. -/
def removeFirstAux (pat : List Char) : List Char → List Char
  | [] => []
  | c :: rest =>
    if List.isPrefixOf pat (c :: rest) then (c :: rest).drop pat.length
    else c :: removeFirstAux pat rest

/-- Remove the first occurrence of a literal pattern from a string. -/
def removeFirst (s pat : String) : String := String.mk (removeFirstAux pat.data s.data)

/-- Modelled approximation of new URL(url).hostname from the host
runtime: strip the explicit http or https scheme, keep characters up to
the first slash, question mark, hash or colon, and lowercase the result.
Faithful for the scheme-prefixed URLs the agent processes; URLs the real
parser would reject are out of scope of the theorems that use this. -/
def urlHostname (url : String) : String :=
  String.mk (((stripHttpScheme url).data.takeWhile
    (fun c => !(c = '/' || c = '?' || c = '#' || c = ':'))).map Char.toLower)

/-- The dollar-anchored TLD-stripping replace of extractCompanyFromUrl:
remove one trailing TLD among com, org, net, co.uk, nl, de, fr. -/
def stripTld (s : String) : String :=
  if strEnds s ".co.uk" then String.mk (s.data.take (s.data.length - 6))
  else if strEnds s ".com" || strEnds s ".org" || strEnds s ".net" then
    String.mk (s.data.take (s.data.length - 4))
  else if strEnds s ".nl" || strEnds s ".de" || strEnds s ".fr" then
    String.mk (s.data.take (s.data.length - 3))
  else s

/-- extractCompanyFromUrl (src/autonomous-agent.js lines 346-356): strip a
leading www. and a common TLD, split the rest on dots and hyphens, keep
the parts longer than two characters, capitalize them and append the
Healthcare suffix. -/
def extractCompanyFromUrl (hostname : String) : String :=
  let name := if strStarts hostname "www." then strDrop hostname 4 else hostname
  let name := stripTld name
  let parts := strSplit name (fun c => c = '.' || c = '-')
  let meaningful := parts.filter (fun part => 2 < part.length)
  String.intercalate " " (meaningful.map capitalizeJS) ++ " Healthcare"

/-- extractLocationFromUrl (lines 358-370): the first location hint
contained in the lowercased hostname, capitalized; otherwise the default
Practice Location. -/
def extractLocationFromUrl (hostname : String) : String :=
  let locationHints := ["london", "newyork", "sydney", "toronto", "vancouver",
    "melbourne", "amsterdam", "berlin", "paris"]
  let domain := String.mk (hostname.data.map Char.toLower)
  match locationHints.find? (fun loc => hasSub loc.data domain.data) with
  | some loc => capitalizeJS loc
  | none => "Practice Location"

/-- basicContentAnalysis (src/autonomous-agent.js lines 328-343): the
fallback when the Exa classifier is unavailable; fixed generic services,
treatments and specializations plus URL-derived company and location.  No
content_analyzed field is produced. -/
def basicContentAnalysis (url : String) : ExaData :=
  let hostname := urlHostname url
  { company := extractCompanyFromUrl hostname
    phone := ""
    email := ""
    location := extractLocationFromUrl hostname
    services := ["Healthcare Services"]
    treatments := ["Consultation"]
    specializations := ["General Healthcare"]
    practice_type := "general-healthcare" }

/-- searchWithExa when no Exa API key is configured (lines 139-143): the
method returns basicContentAnalysis without touching the network. -/
def searchWithExaNoKey (url : String) : ExaData := basicContentAnalysis url

/-- A character kept by the slug regex of generatePracticeId after
lowercasing: an ASCII letter, a digit, or whitespace. -/
def keepSlugChar (c : Char) : Bool := c.isAlpha || c.isDigit || isWsJS c

/-- The global whitespace-run replacement of generatePracticeId: every
maximal run of whitespace becomes one hyphen.  The boolean tracks whether
the previous character was part of a whitespace run. -/
def collapseWsAux : Bool → List Char → List Char
  | _, [] => []
  | prevWs, c :: rest =>
    if isWsJS c then
      if prevWs then collapseWsAux true rest
      else '-' :: collapseWsAux true rest
    else c :: collapseWsAux false rest

/-- Decimal digits of a natural number, most significant first, with
explicit fuel so that the kernel evaluates it directly. -/
def natDecAux : Nat → Nat → List Char
  | 0, _ => []
  | fuel + 1, n =>
    if n < 10 then [Char.ofNat (48 + n)]
    else natDecAux fuel (n / 10) ++ [Char.ofNat (48 + n % 10)]

/-- Decimal representation of a natural number, the toString() of a
JavaScript integer timestamp. -/
def natDecimal (n : Nat) : String := String.mk (natDecAux (n + 1) n)

/-- JavaScript slice(-6): the last six characters, or the whole string if
it is shorter. -/
def sliceLast6 (s : String) : String := String.mk (s.data.drop (s.data.length - 6))

/-- generatePracticeId (src/autonomous-agent.js lines 129-136): lowercase
the company name, strip everything but letters, digits and whitespace,
collapse whitespace runs to hyphens, truncate to 30 characters and append
a hyphen and the last six digits of Date.now(). -/
def generatePracticeId (companyName : String) (now : Nat) : String :=
  String.mk ((collapseWsAux false ((companyName.data.map Char.toLower).filter keepSlugChar)).take 30)
    ++ "-" ++ sliceLast6 (natDecimal now)

/-- A character allowed in the body of the documented slug format:
lowercase letter, digit or hyphen. -/
def slugBodyChar (c : Char) : Bool := c.isLower || c.isDigit || c = '-'

/-- The documented practiceId format: a body of lowercase alphanumeric
and hyphen characters followed by a hyphen and a six-digit time-based
suffix. -/
def slugFormat (s : String) : Bool :=
  let cs := s.data
  let n := cs.length
  decide (7 ≤ n) &&
    (match cs.drop (n - 7) with
     | '-' :: ds => decide (ds.length = 6) && ds.all Char.isDigit
        && (cs.take (n - 7)).all slugBodyChar
     | _ => false)

/-- The catch-path practice id of scrapeHealthcarePractice (line 107):
strip the scheme, drop every character that is not an ASCII letter or
digit and truncate to 20 characters.  The source replace of the scheme is
unanchored but removes only the first occurrence, which for URLs is the
leading scheme. -/
def scrapeFallbackId (url : String) : String :=
  strTake (String.mk ((stripHttpScheme url).data.filter (fun c => c.isAlpha || c.isDigit))) 20

/-- scrapeHealthcarePractice (src/autonomous-agent.js lines 59-127).  The
outcome of the awaited searchWithExa call is a parameter: ok carries the
returned classifier data (searchWithExa itself never rejects — every
failure inside it falls back to basicContentAnalysis), and error models an
unexpected exception inside the try block, which the catch turns into the
basic fallback record.  now and nowIso stand for Date.now() and the
ISO timestamp. -/
def scrapeHealthcarePractice (url : String) (now : Nat) (nowIso : String)
    (exaOutcome : Except String ExaData) : NotionObj :=
  let hostname := urlHostname url
  let companyName := extractCompanyFromUrl hostname
  match exaOutcome with
  | .ok exaData =>
    let company := jsOr exaData.company companyName
    { company := some company
      phone := some (jsOr exaData.phone "")
      email := some (jsOr exaData.email "")
      location := some (jsOr exaData.location (extractLocationFromUrl hostname))
      services := .arr exaData.services
      treatments := .arr exaData.treatments
      specializations := .arr exaData.specializations
      url := some url
      domain := some hostname
      scraped_at := some nowIso
      practice_type := some (jsOr exaData.practice_type "healthcare")
      lead_score := some ((calculateLeadScore exaData : Nat) : Int)
      exa_enhanced := some true
      practiceId := some (generatePracticeId company now) }
  | .error e =>
    { company := some companyName
      phone := some ""
      email := some ""
      location := some (extractLocationFromUrl hostname)
      services := .arr ["General Healthcare"]
      treatments := .arr ["Consultation"]
      specializations := .arr ["Healthcare"]
      url := some url
      domain := some hostname
      practiceId := some (scrapeFallbackId url)
      scraped_at := some nowIso
      practice_type := some "healthcare-basic"
      lead_score := some 30
      exa_enhanced := some false
      error := some e }

/-- The result object shape of the deployment strategies of
src/unnamed/part_000. -/
structure DeploymentResult where
  success : Bool
  github_repo : Option String := none
  railway_url : Option String := none
  project_id : Option String := none
  service_id : Option String := none
  method : Option String := none
  error : Option String := none
  note : Option String := none
  fallback_reason : Option String := none
deriving DecidableEq, Repr

/-- createEmergencyMockDeployment (src/unnamed/part_000 lines 1022-1036):
a synthetic always-successful deployment result built without any external
call.  A missing practiceId stringifies as undefined in the template
literal, exactly as in JavaScript. -/
def createEmergencyMockDeployment (practiceData : NotionObj) (now : Nat) : DeploymentResult :=
  let pid := match practiceData.practiceId with
    | some s => s
    | none => "undefined"
  { success := true
    github_repo := some "https://github.com/jomarcello/Agentsdemo"
    railway_url := some ("https://" ++ pid ++ "-emergency-" ++ natDecimal now ++ ".mock.demo")
    project_id := some "emergency-mock"
    service_id := some "emergency-service"
    method := some "emergency-mock"
    note := some "Emergency mock deployment - workflow completed with simulated resources" }

/-- createPersonalizedRepository (src/unnamed/part_000 lines 915-958): the
ordered strategy cascade.  The outcomes of the three strategies that
depend on external services (full-github-railway, existing-repo-railway,
direct-railway-mcp) are parameters: ok is the result the strategy
returned, error the exception it threw.  The fourth strategy is the
embedded createEmergencyMockDeployment, which is total, so the
all-strategies-exhausted branch of the source (reached only if the mock
itself threw) is unreachable and the cascade never raises past its
boundary. -/
def createPersonalizedRepository (practiceData : NotionObj) (now : Nat)
    (s1 s2 s3 : Except String DeploymentResult) : DeploymentResult :=
  match s1 with
  | .ok r => r
  | .error _ =>
    match s2 with
    | .ok r => r
    | .error _ =>
      match s3 with
      | .ok r => r
      | .error _ => createEmergencyMockDeployment practiceData now

/-- One entry of the stepResults record of the fault-tolerant
processHealthcarePractice (src/unnamed/part_000 lines 1112-1116); the
data component is tracked separately by the orchestrator embedding. -/
structure StepResult where
  success : Bool
  error : Option String := none
  fallback_used : Bool := false
  emergency_fallback : Bool := false
deriving DecidableEq, Repr

/-- The terminal result object of the fault-tolerant
processHealthcarePractice (src/unnamed/part_000 lines 1228-1270),
restricted to the fields the claims talk about. -/
structure WorkflowResult where
  success : Bool
  workflow_status : String
  practice_company : Option String
  practice_id : Option String
  deployment_method : Option String
  notion_stored : Bool
  notion_lead_id : String
  notion_is_fallback : Bool
  step_scraping : StepResult
  step_notion : StepResult
  step_deployment : StepResult
  successful_steps : Nat
  total_steps : Nat
  fallbacks_used : List String
deriving DecidableEq, Repr

/-- createMinimalFallbackData (src/unnamed/part_000 lines 1314-1332): the
orchestrator-level fallback practice record derived from the URL alone. -/
def createMinimalFallbackData (url : String) (now : Nat) (nowIso : String) : NotionObj :=
  let hostname := removeFirst (urlHostname url) "www."
  let part0 := (strSplit hostname (fun c => c = '.')).headD ""
  { company := some (capitalizeJS part0 ++ " Healthcare")
    doctor := some "Dr. Healthcare"
    phone := some ""
    email := some ""
    location := some "Healthcare Location"
    services := .arr ["General Healthcare"]
    url := some url
    practiceId := some ("fallback-"
      ++ String.mk (hostname.data.filter (fun c => c.isAlpha || c.isDigit))
      ++ "-" ++ sliceLast6 (natDecimal now))
    scraped_at := some nowIso
    practice_type := some "healthcare"
    lead_score := some 30
    fallback_reason := some "Scraping failed - using URL-based fallback data" }

/-- The emergency Notion result the orchestrator synthesizes when
storeLeadInNotion itself throws (src/unnamed/part_000 lines 1162-1167). -/
def emergencyNotionResult (practiceData : NotionObj) (now : Nat) : NotionStoreResult :=
  { success := true
    leadId := "emergency_" ++ natDecimal now
    record := some { company := practiceData.company, status := some "Emergency Fallback" }
    is_emergency_fallback := true }

/-- The fallback deployment record the orchestrator synthesizes when the
cascade itself throws (src/unnamed/part_000 lines 1196-1203). -/
def failedDeploymentResult (e : String) : DeploymentResult :=
  { success := false
    error := some e
    github_repo := some "N/A - Deployment Failed"
    railway_url := some "N/A - Deployment Failed"
    method := some "failed-with-fallback"
    fallback_reason := some e }

/-- The fault-tolerant processHealthcarePractice
(src/unnamed/part_000 lines 1105-1312).  The awaited outcome of each of
the three phases is a parameter: ok carries what the phase returned and
error models the phase throwing, which each catch block absorbs into a
synthetic fallback.  Phase 0 additionally treats a returned record with a
falsy company as a throw, per the explicit check of the source. -/
def processHealthcarePractice (url : String) (now : Nat) (nowIso : String)
    (scrapeRes : Except String NotionObj)
    (notionRes : Except String NotionStoreResult)
    (deployRes : Except String DeploymentResult) : WorkflowResult :=
  let scrapePair : NotionObj × StepResult :=
    match scrapeRes with
    | .ok d =>
      if d.company.getD "" ≠ "" then (d, { success := true })
      else (createMinimalFallbackData url now nowIso,
        { success := false, error := some "No valid practice data extracted",
          fallback_used := true })
    | .error e =>
      (createMinimalFallbackData url now nowIso,
        { success := false, error := some e, fallback_used := true })
  let practiceData := scrapePair.1
  let stepScraping := scrapePair.2
  let notionPair : NotionStoreResult × StepResult :=
    match notionRes with
    | .ok n => (n, { success := true })
    | .error e =>
      (emergencyNotionResult practiceData now,
        { success := false, error := some e, emergency_fallback := true })
  let notionResult := notionPair.1
  let stepNotion := notionPair.2
  let deployPair : DeploymentResult × StepResult :=
    match deployRes with
    | .ok d => (d, { success := d.success })
    | .error e =>
      (failedDeploymentResult e,
        { success := false, error := some e, fallback_used := true })
  let deploymentResult := deployPair.1
  let stepDeployment := deployPair.2
  let successfulSteps := (if stepScraping.success then 1 else 0)
    + (if stepNotion.success then 1 else 0) + (if stepDeployment.success then 1 else 0)
  let totalSteps := 3
  let workflowStatus :=
    if successfulSteps = totalSteps then "complete"
    else if 0 < successfulSteps then "partial-success"
    else "failed"
  { success := workflowStatus != "failed"
    workflow_status := workflowStatus
    practice_company := practiceData.company
    practice_id := practiceData.practiceId
    deployment_method := deploymentResult.method
    notion_stored := notionResult.success
    notion_lead_id := notionResult.leadId
    notion_is_fallback := notionResult.is_fallback || notionResult.is_emergency_fallback
    step_scraping := stepScraping
    step_notion := stepNotion
    step_deployment := stepDeployment
    successful_steps := successfulSteps
    total_steps := totalSteps
    fallbacks_used :=
      (if stepScraping.fallback_used then ["scraping"] else [])
        ++ (if stepNotion.emergency_fallback then ["notion-emergency"] else [])
        ++ (if stepDeployment.fallback_used then ["deployment"] else []) }

/-- One entry of the results list of processBatchHealthcarePractices. -/
structure BatchItem where
  url : String
  success : Bool
  result : Option WorkflowResult := none
  error : Option String := none
deriving DecidableEq, Repr

/-- The window partition of processBatchHealthcarePractices
(src/autonomous-agent.js lines 777-798): the loop advances by the
concurrency limit of 3 and slices a window each iteration.  The fuel is
the list length, enough for every iteration. -/
def chunkAux : Nat → List String → List (List String)
  | 0, _ => []
  | _, [] => []
  | fuel + 1, l => l.take 3 :: chunkAux fuel (l.drop 3)

/-- The list of windows the batch loop processes. -/
def chunkWindows (urls : List String) : List (List String) := chunkAux urls.length urls

/-- The per-item wrapper inside a window: the workflow outcome is a
parameter, and a throwing workflow is caught and recorded as a per-item
failure without aborting the batch. -/
def runBatchItem (process : String → Except String WorkflowResult) (url : String) : BatchItem :=
  match process url with
  | .ok r => { url := url, success := true, result := some r }
  | .error e => { url := url, success := false, error := some e }

/-- processBatchHealthcarePractices (src/autonomous-agent.js lines
771-801, identical in src/unnamed/part_000 lines 1335-1365): windows are
awaited strictly one after another (the sequential fold), the items of a
window run concurrently with Promise.all, which returns them in input
order (the map), and the pacing delay between windows does not affect the
returned list. -/
def processBatchHealthcarePractices (process : String → Except String WorkflowResult)
    (urls : List String) : List BatchItem :=
  (chunkWindows urls).foldl
    (fun results batch => results ++ batch.map (runBatchItem process)) []

/-- The end-to-end enrichment of the scenario URL with the classifier
disabled: searchWithExa returns basicContentAnalysis, which feeds the
success path of scrapeHealthcarePractice. -/
def drsmithScrape : NotionObj :=
  scrapeHealthcarePractice "https://drsmith-dental.example.com" 123456 "T"
    (.ok (searchWithExaNoKey "https://drsmith-dental.example.com"))

/-- A concrete practice record used to drive one orchestrator run. -/
def c1Practice : NotionObj :=
  { company := some "Acme Clinic", practiceId := some "acme-clinic-123456" }

/-- A concrete orchestrator run in which every phase reports success while
persistence returned a fallback record and the deployment came from the
emergency mock strategy. -/
def c1Run : WorkflowResult :=
  processHealthcarePractice "https://acme.com" 123456 "T"
    (.ok c1Practice)
    (.ok (createFallbackNotionRecord (validateNotionData c1Practice "T") 123456 "T" "ab"))
    (.ok (createEmergencyMockDeployment c1Practice 123456))

/-- A guarded increment equals adding a guarded bonus. -/
theorem ite_incr (c : Prop) [Decidable c] (x b : Nat) :
    (if c then x + b else x) = x + (if c then b else 0) := by
  split_ifs <;> omega

set_option maxHeartbeats 1000000 in
theorem calculateLeadScore_eq_spec (d : ExaData) :
    calculateLeadScore d = leadScoreSpec d := by
  obtain ⟨c, ph, em, lo, sv, tr, sp, pt, ca⟩ := d
  cases ca <;>
    simp only [calculateLeadScore, leadScoreSpec, servicesBonus, treatmentsBonus,
      phoneBonus, emailBonus, locationBonus, specializationsBonus, richContentBonus,
      ite_incr, Nat.add_zero]

theorem calculateLeadScore_ge_50 (d : ExaData) : 50 ≤ calculateLeadScore d := by
  rw [calculateLeadScore_eq_spec]
  unfold leadScoreSpec
  omega

theorem calculateLeadScore_le_100 (d : ExaData) : calculateLeadScore d ≤ 100 := by
  rw [calculateLeadScore_eq_spec]
  unfold leadScoreSpec
  omega

/-- C4: the score is the base 50 plus the capped per-signal contributions,
clamped to at most 100, and lies in the integer range 0..100.  The
embedding is a pure function, so it has no side effects. -/
theorem calculateLeadScore_decomposition (d : ExaData) :
    calculateLeadScore d = leadScoreSpec d ∧ calculateLeadScore d ≤ 100 := by
  exact ⟨calculateLeadScore_eq_spec d, calculateLeadScore_le_100 d⟩

/-- Componentwise signal order: the second input has at least the counts of
the first on every list signal, and every presence signal of the first is
also present in the second.  Two inputs that agree on every signal except
one where the second is larger are related by this order. -/
def SignalLE (d1 d2 : ExaData) : Prop :=
  d1.services.length ≤ d2.services.length ∧
  d1.treatments.length ≤ d2.treatments.length ∧
  d1.specializations.length ≤ d2.specializations.length ∧
  (d1.phone ≠ "" → d2.phone ≠ "") ∧
  (d1.email ≠ "" → d2.email ≠ "") ∧
  (d1.location ≠ "" → d2.location ≠ "") ∧
  (richContentBonus d1 ≤ richContentBonus d2)

/-- C5: the score is monotonically non-decreasing in each signal: whenever
two inputs are componentwise ordered (in particular when they agree on all
signals but one, where the second is larger), the second scores at least
as much. -/
theorem calculateLeadScore_monotone (d1 d2 : ExaData) (h : SignalLE d1 d2) :
    calculateLeadScore d1 ≤ calculateLeadScore d2 := by
  obtain ⟨hs, ht, hsp, hph, hem, hlo, hrc⟩ := h
  rw [calculateLeadScore_eq_spec, calculateLeadScore_eq_spec]
  unfold leadScoreSpec
  have h1 : servicesBonus d1 ≤ servicesBonus d2 := by
    unfold servicesBonus; split_ifs <;> omega
  have h2 : treatmentsBonus d1 ≤ treatmentsBonus d2 := by
    unfold treatmentsBonus; split_ifs <;> omega
  have h3 : specializationsBonus d1 ≤ specializationsBonus d2 := by
    unfold specializationsBonus; split_ifs <;> omega
  have h4 : phoneBonus d1 ≤ phoneBonus d2 := by
    unfold phoneBonus
    by_cases hp : d1.phone = ""
    · simp [hp]
    · simp [hp, hph hp]
  have h5 : emailBonus d1 ≤ emailBonus d2 := by
    unfold emailBonus
    by_cases hp : d1.email = ""
    · simp [hp]
    · simp [hp, hem hp]
  have h6 : locationBonus d1 ≤ locationBonus d2 := by
    unfold locationBonus
    by_cases hp : d1.location = ""
    · simp [hp]
    · simp [hp, hlo hp]
  omega

/-- Witness for C5 at concrete inputs: adding one service to an otherwise
identical record does not decrease the score. -/
theorem calculateLeadScore_monotone_witness :
    SignalLE { services := ["Botox"] } { services := ["Botox", "Laser"] } ∧
      calculateLeadScore { services := ["Botox"] } ≤
        calculateLeadScore { services := ["Botox", "Laser"] } :=
  ⟨by constructor <;> simp [richContentBonus],
    calculateLeadScore_monotone _ _
      (by constructor <;> simp [richContentBonus])⟩

/-- C10: the score never drops below the base of 50 — the computation only
adds non-negative capped bonuses to 50 and the final clamp is only from
above — so the actual output range is 50..100 and no lower clamp is
needed. -/
theorem calculateLeadScore_range (d : ExaData) :
    50 ≤ calculateLeadScore d ∧ calculateLeadScore d ≤ 100 :=
  ⟨calculateLeadScore_ge_50 d, calculateLeadScore_le_100 d⟩

/-- A string with a non-empty left part of an append is non-empty. -/
theorem strAppendNeLeft (p t : String) (hp : p ≠ "") : p ++ t ≠ "" := by
  intro hc
  apply hp
  have h1 := congrArg String.length hc
  rw [String.length_append, String.length_empty] at h1
  have h2 : p.length = 0 := by omega
  cases p with
  | mk data =>
    simp only [String.length_mk] at h2
    have hdata : data = [] := List.eq_nil_of_length_eq_zero h2
    subst hdata
    rfl

/-- The jsOr default idiom never produces the empty string when the
default is non-empty. -/
theorem jsOr_ne_empty (a d : String) (hd : d ≠ "") : jsOr a d ≠ "" := by
  unfold jsOr
  split_ifs with h
  · exact hd
  · exact h

/-- C3 (amended): storeLeadInNotion always returns a successful result
object with a non-empty leadId and never throws (the embedding is a total
function); when the underlying store call fails it returns the fallback
record with is_fallback true, which preserves the validated company,
phone, email and location — but resets the services field to the literal
default, drops treatments and specializations entirely and empties the
website, because createFallbackNotionRecord reads raw-record keys on an
already validated object. -/
theorem storeLeadInNotion_fallback_spec (pd : NotionObj) (now : Nat) (nowIso rand : String) :
    (∀ storeOk : Bool,
      (storeLeadInNotion pd storeOk now nowIso rand).success = true ∧
      (storeLeadInNotion pd storeOk now nowIso rand).leadId ≠ "") ∧
    (storeLeadInNotion pd false now nowIso rand).is_fallback = true ∧
    ∃ fb, (storeLeadInNotion pd false now nowIso rand).record = some fb ∧
      fb.company = (validateNotionData pd nowIso).company ∧
      fb.phone = (validateNotionData pd nowIso).phone ∧
      fb.email = (validateNotionData pd nowIso).email ∧
      fb.location = (validateNotionData pd nowIso).location ∧
      fb.services = SField.str "Healthcare Services" ∧
      fb.website = some "" ∧
      fb.treatments = SField.undef ∧
      fb.specializations = SField.undef := by
  refine ⟨fun storeOk => ?_, ?_, ?_⟩
  · cases storeOk with
    | true =>
      refine ⟨rfl, ?_⟩
      show "notion_" ++ toString now ++ "_" ++ rand ≠ ""
      exact strAppendNeLeft _ _ (strAppendNeLeft _ _ (strAppendNeLeft _ _ (by decide)))
    | false =>
      refine ⟨rfl, ?_⟩
      show "fallback_" ++ toString now ++ "_" ++ rand ≠ ""
      exact strAppendNeLeft _ _ (strAppendNeLeft _ _ (strAppendNeLeft _ _ (by decide)))
  · rfl
  · refine ⟨_, rfl, ?_, rfl, rfl, ?_, rfl, rfl, rfl, rfl⟩
    · show some (jsOrOpt (some (jsOr (sanitize pd.company) "Healthcare Practice"))
        "Healthcare Practice") = some (jsOr (sanitize pd.company) "Healthcare Practice")
      simp only [jsOrOpt]
      rw [if_neg (jsOr_ne_empty _ _ (by decide))]
    · show some (jsOrOpt (some (jsOr (sanitize pd.location) "Healthcare Location"))
        "Healthcare Location") = some (jsOr (sanitize pd.location) "Healthcare Location")
      simp only [jsOrOpt]
      rw [if_neg (jsOr_ne_empty _ _ (by decide))]

/-- Witness for C3 at a concrete record: the fallback path yields a
successful result with a non-empty id and the fallback flag set. -/
theorem storeLeadInNotion_fallback_spec_witness :
    (storeLeadInNotion { company := some "Acme Clinic" } false 123 "T" "ab").success = true ∧
    (storeLeadInNotion { company := some "Acme Clinic" } false 123 "T" "ab").is_fallback = true :=
  ⟨((storeLeadInNotion_fallback_spec { company := some "Acme Clinic" } 123 "T" "ab").1 false).1,
    (storeLeadInNotion_fallback_spec { company := some "Acme Clinic" } 123 "T" "ab").2.1⟩

/-- C3 counterexample to the claim as stated: for a record whose services
were the array of the two strings Dental Implants and Botox, the validated
payload joins them as a services string, but the fallback record returned
when the store call fails carries the literal default instead — the
original record payload is not preserved. -/
theorem storeLeadInNotion_payload_not_preserved :
    (validateNotionData sampleLeadWithServices "T").services
      = SField.str "Dental Implants, Botox" ∧
    ((storeLeadInNotion sampleLeadWithServices false 123 "T" "ab").record.map
          NotionObj.services)
      = some (SField.str "Healthcare Services") := by
  constructor
  · decide
  · decide

/-- C6 (amended): validateNotionData is total (it never rejects its
input), but it is not idempotent: its output schema differs from the input
schema it reads (website versus url, practice_id versus practiceId, joined
strings versus arrays), so a second application always empties website and
practice_id and resets services, treatments and specializations to their
literal defaults. -/
theorem validateNotionData_not_idempotent (pd : NotionObj) (iso1 iso2 : String) :
    (validateNotionData (validateNotionData pd iso1) iso2).website = some "" ∧
    (validateNotionData (validateNotionData pd iso1) iso2).practice_id = some "" ∧
    (validateNotionData (validateNotionData pd iso1) iso2).services
      = SField.str "Healthcare Services" ∧
    (validateNotionData (validateNotionData pd iso1) iso2).treatments
      = SField.str "Consultation" ∧
    (validateNotionData (validateNotionData pd iso1) iso2).specializations
      = SField.str "General Healthcare" :=
  ⟨rfl, rfl, rfl, rfl, rfl⟩

/-- C6 counterexample to idempotence at a concrete record: re-validating
the validated record changes it — the website survives the first
application but is emptied by the second. -/
theorem validateNotionData_not_idempotent_cex :
    (validateNotionData sampleLeadWithUrl "T").website = some "https://a.com" ∧
    validateNotionData (validateNotionData sampleLeadWithUrl "T") "T"
      ≠ validateNotionData sampleLeadWithUrl "T" := by
  constructor
  · decide
  · decide

/-- C2: when the three externally-dependent strategies all fail, the
cascade returns the fourth no-dependency strategy result, whose success
flag is true; the embedded cascade is a total function, so it never raises
past its boundary. -/
theorem createPersonalizedRepository_cascade (practiceData : NotionObj) (now : Nat)
    (s1 s2 s3 : Except String DeploymentResult) (e1 e2 e3 : String)
    (h1 : s1 = .error e1) (h2 : s2 = .error e2) (h3 : s3 = .error e3) :
    createPersonalizedRepository practiceData now s1 s2 s3
      = createEmergencyMockDeployment practiceData now ∧
    (createPersonalizedRepository practiceData now s1 s2 s3).success = true := by
  subst h1; subst h2; subst h3
  exact ⟨rfl, rfl⟩

/-- Witness for C2 at concrete failing strategies. -/
theorem createPersonalizedRepository_cascade_witness :
    (createPersonalizedRepository c1Practice 77
      (.error "github down") (.error "railway down") (.error "mcp down")).success = true :=
  (createPersonalizedRepository_cascade c1Practice 77
    (.error "github down") (.error "railway down") (.error "mcp down")
    "github down" "railway down" "mcp down" rfl rfl rfl).2

/-- The url stored in a batch item is the processed url, whatever the
workflow outcome was. -/
theorem runBatchItem_url (process : String → Except String WorkflowResult) (u : String) :
    (runBatchItem process u).url = u := by
  unfold runBatchItem
  cases process u <;> rfl

/-- Mapping the url projection over one processed window returns the
window itself. -/
theorem mapRunBatchItem_url (process : String → Except String WorkflowResult)
    (w : List String) : (w.map (runBatchItem process)).map BatchItem.url = w := by
  induction w with
  | nil => rfl
  | cons x t ih => simp [runBatchItem_url, ih]

/-- Folding the windows accumulates exactly the concatenation of the
windows, in order. -/
theorem foldl_windows_url (process : String → Except String WorkflowResult)
    (ws : List (List String)) (acc : List BatchItem) :
    ((ws.foldl (fun results batch => results ++ batch.map (runBatchItem process)) acc).map
      BatchItem.url) = acc.map BatchItem.url ++ ws.flatten := by
  induction ws generalizing acc with
  | nil => simp
  | cons w ws ih =>
    rw [List.foldl_cons, ih, List.map_append, mapRunBatchItem_url]
    simp [List.append_assoc]

/-- The window partition concatenates back to the input list. -/
theorem chunkAux_flatten (fuel : Nat) (l : List String) (h : l.length ≤ fuel) :
    (chunkAux fuel l).flatten = l := by
  induction fuel generalizing l with
  | zero =>
    cases l with
    | nil => rfl
    | cons x t => simp at h
  | succ f ih =>
    cases l with
    | nil => rfl
    | cons x t =>
      have hlen : ((x :: t).drop 3).length ≤ f := by
        simp only [List.length_drop, List.length_cons]
        simp only [List.length_cons] at h
        omega
      show ((x :: t).take 3 :: chunkAux f ((x :: t).drop 3)).flatten = x :: t
      rw [List.flatten_cons, ih ((x :: t).drop 3) hlen, List.take_append_drop]

/-- Batch coordinator order: the results list carries one entry per input
url in the input order, for every input list. -/
theorem processBatch_order (process : String → Except String WorkflowResult)
    (urls : List String) :
    (processBatchHealthcarePractices process urls).map BatchItem.url = urls := by
  unfold processBatchHealthcarePractices chunkWindows
  rw [foldl_windows_url, chunkAux_flatten urls.length urls (Nat.le_refl _)]
  rfl

/-- C9: a batch of 7 targets with the concurrency limit of 3 is processed
in exactly 3 windows of sizes 3, 3 and 1, the windows are drained
strictly one after another (the sequential fold over windows in the
embedding), and the returned list has exactly one entry per input url in
input order. -/
theorem processBatch_seven (process : String → Except String WorkflowResult)
    (urls : List String) (h : urls.length = 7) :
    (chunkWindows urls).map List.length = [3, 3, 1] ∧
    (processBatchHealthcarePractices process urls).map BatchItem.url = urls := by
  refine ⟨?_, processBatch_order process urls⟩
  obtain ⟨a, l1, rfl⟩ := List.exists_of_length_succ urls h
  simp only [List.length_cons, Nat.succ_inj] at h
  obtain ⟨b, l2, rfl⟩ := List.exists_of_length_succ l1 h
  simp only [List.length_cons, Nat.succ_inj] at h
  obtain ⟨c, l3, rfl⟩ := List.exists_of_length_succ l2 h
  simp only [List.length_cons, Nat.succ_inj] at h
  obtain ⟨d, l4, rfl⟩ := List.exists_of_length_succ l3 h
  simp only [List.length_cons, Nat.succ_inj] at h
  obtain ⟨e, l5, rfl⟩ := List.exists_of_length_succ l4 h
  simp only [List.length_cons, Nat.succ_inj] at h
  obtain ⟨f, l6, rfl⟩ := List.exists_of_length_succ l5 h
  simp only [List.length_cons, Nat.succ_inj] at h
  obtain ⟨g, l7, rfl⟩ := List.exists_of_length_succ l6 h
  simp only [List.length_cons, Nat.succ_inj] at h
  rw [List.length_eq_zero] at h
  subst h
  rfl

/-- Witness for C9 at a concrete batch of 7 urls. -/
theorem processBatch_seven_witness :
    ["u1", "u2", "u3", "u4", "u5", "u6", "u7"].length = 7 ∧
    (chunkWindows ["u1", "u2", "u3", "u4", "u5", "u6", "u7"]).map List.length = [3, 3, 1] :=
  ⟨by decide,
    (processBatch_seven (fun _ => .error "down")
      ["u1", "u2", "u3", "u4", "u5", "u6", "u7"] (by decide)).1⟩

set_option maxRecDepth 4000 in
/-- C7 (amended): with the classifier disabled, enriching the scenario URL
yields services equal to the single generic entry, treatments equal to
Consultation, a non-empty company derived from the hostname, a lead score
of 68 (base 50, plus 5 for one service, 3 for one treatment, 5 for the
URL-derived location, 5 for the generic specialization) and exa_enhanced
true, because the success path of scrapeHealthcarePractice sets
exa_enhanced unconditionally. -/
theorem scrape_drsmith_no_key :
    drsmithScrape.services = SField.arr ["Healthcare Services"] ∧
    drsmithScrape.treatments = SField.arr ["Consultation"] ∧
    drsmithScrape.company = some "Drsmith Dental Example Healthcare" ∧
    drsmithScrape.lead_score = some 68 ∧
    drsmithScrape.exa_enhanced = some true := by
  refine ⟨by decide, by decide, by decide, by decide, by decide⟩

set_option maxRecDepth 4000 in
/-- C7 counterexample to the claim as stated: on the scenario input the
code returns a lead score of 68, which is outside the claimed 50..60
range, and exa_enhanced is not false. -/
theorem scrape_drsmith_no_key_cex :
    drsmithScrape.lead_score = some 68 ∧
    ¬(50 ≤ (68 : Int) ∧ (68 : Int) ≤ 60) ∧
    drsmithScrape.exa_enhanced ≠ some false := by
  refine ⟨by decide, by decide, by decide⟩

/-- Status classification over the three step success flags, exactly as
computed from successfulSteps and totalSteps at src/unnamed/part_000
lines 1217-1226. -/
theorem statusOfBools (b1 b2 b3 : Bool) :
    ((if ((if b1 = true then 1 else 0) + (if b2 = true then 1 else 0)
          + (if b3 = true then 1 else 0) : Nat) = 3 then "complete"
        else if (0 : Nat) < (if b1 = true then 1 else 0) + (if b2 = true then 1 else 0)
          + (if b3 = true then 1 else 0) then "partial-success" else "failed")
        = "complete" ↔ b1 = true ∧ b2 = true ∧ b3 = true) ∧
    ((if ((if b1 = true then 1 else 0) + (if b2 = true then 1 else 0)
          + (if b3 = true then 1 else 0) : Nat) = 3 then "complete"
        else if (0 : Nat) < (if b1 = true then 1 else 0) + (if b2 = true then 1 else 0)
          + (if b3 = true then 1 else 0) then "partial-success" else "failed")
        = "partial-success" ↔
      ((b1 = true ∨ b2 = true ∨ b3 = true) ∧ ¬(b1 = true ∧ b2 = true ∧ b3 = true))) ∧
    ((if ((if b1 = true then 1 else 0) + (if b2 = true then 1 else 0)
          + (if b3 = true then 1 else 0) : Nat) = 3 then "complete"
        else if (0 : Nat) < (if b1 = true then 1 else 0) + (if b2 = true then 1 else 0)
          + (if b3 = true then 1 else 0) then "partial-success" else "failed")
        = "failed" ↔ b1 = false ∧ b2 = false ∧ b3 = false) := by
  cases b1 <;> cases b2 <;> cases b3 <;> exact ⟨by decide, by decide, by decide⟩

/-- C1 (amended): the overall status is complete exactly when all three
recorded step success flags are true — a phase that succeeded through an
internal fallback (a fallback persistence record, the emergency mock
deployment) still counts as a successful step; partial-success exactly
when at least one but not all flags are true; failed exactly when no flag
is true, even though every phase still produced usable fallback output. -/
theorem processHealthcarePractice_status (url : String) (now : Nat) (nowIso : String)
    (scrapeRes : Except String NotionObj) (notionRes : Except String NotionStoreResult)
    (deployRes : Except String DeploymentResult) :
    let r := processHealthcarePractice url now nowIso scrapeRes notionRes deployRes
    (r.workflow_status = "complete" ↔
      r.step_scraping.success = true ∧ r.step_notion.success = true ∧
        r.step_deployment.success = true) ∧
    (r.workflow_status = "partial-success" ↔
      ((r.step_scraping.success = true ∨ r.step_notion.success = true ∨
          r.step_deployment.success = true) ∧
        ¬(r.step_scraping.success = true ∧ r.step_notion.success = true ∧
          r.step_deployment.success = true))) ∧
    (r.workflow_status = "failed" ↔
      r.step_scraping.success = false ∧ r.step_notion.success = false ∧
        r.step_deployment.success = false) := by
  intro r
  exact statusOfBools r.step_scraping.success r.step_notion.success r.step_deployment.success

/-- C1 counterexample to the claim as stated: a run in which persistence
returned a fallback record and the deployment was the emergency mock is
still reported complete, although fallbacks were used. -/
theorem processHealthcarePractice_complete_with_fallback_cex :
    c1Run.workflow_status = "complete" ∧
    c1Run.notion_is_fallback = true ∧
    c1Run.deployment_method = some "emergency-mock" := by
  refine ⟨by decide, by decide, by decide⟩

/-- A string with a non-empty right part of an append is non-empty. -/
theorem strAppendNeRight (p t : String) (ht : t ≠ "") : p ++ t ≠ "" := by
  intro hc
  apply ht
  have h1 := congrArg String.length hc
  rw [String.length_append, String.length_empty] at h1
  have h2 : t.length = 0 := by omega
  cases t with
  | mk data =>
    simp only [String.length_mk] at h2
    have hdata : data = [] := List.eq_nil_of_length_eq_zero h2
    subst hdata
    rfl

/-- The derived company name always carries the non-empty Healthcare
suffix. -/
theorem extractCompanyFromUrl_ne_empty (hostname : String) :
    extractCompanyFromUrl hostname ≠ "" := by
  unfold extractCompanyFromUrl
  exact strAppendNeRight _ _ (by decide)

/-- Packing a small scalar value and reading it back is the identity. -/
theorem charToNatOfNat (n : Nat) (h : n < 55296) : (Char.ofNat n).toNat = n := by
  rw [Char.ofNat, dif_pos (Or.inl h)]
  simp [Char.ofNatAux, Char.toNat, UInt32.toNat]

/-- Lower-case test through the scalar value. -/
theorem isLowerToNat (c : Char) : c.isLower = true ↔ (97 ≤ c.toNat ∧ c.toNat ≤ 122) := by
  simp [Char.isLower, UInt32.le_def, BitVec.le_def, Char.toNat, UInt32.toNat, ge_iff_le]

/-- Upper-case test through the scalar value. -/
theorem isUpperToNat (c : Char) : c.isUpper = true ↔ (65 ≤ c.toNat ∧ c.toNat ≤ 90) := by
  simp [Char.isUpper, UInt32.le_def, BitVec.le_def, Char.toNat, UInt32.toNat, ge_iff_le]

/-- Digit test through the scalar value. -/
theorem isDigitToNat (c : Char) : c.isDigit = true ↔ (48 ≤ c.toNat ∧ c.toNat ≤ 57) := by
  simp [Char.isDigit, UInt32.le_def, BitVec.le_def, Char.toNat, UInt32.toNat, ge_iff_le]

/-- A lowercased character that is a letter is a lowercase letter. -/
theorem lower_of_toLower_alpha (c : Char) (h : (Char.toLower c).isAlpha = true) :
    (Char.toLower c).isLower = true := by
  by_cases hr : c.toNat ≥ 65 ∧ c.toNat ≤ 90
  · have hv : c.toNat + 32 < 55296 := by omega
    simp only [Char.toLower, if_pos hr] at *
    rw [isLowerToNat, charToNatOfNat _ hv]
    omega
  · simp only [Char.toLower, if_neg hr] at *
    simp [Char.isAlpha] at h
    rcases h with h | h
    · rw [isUpperToNat] at h
      exact absurd ⟨h.1, h.2⟩ hr
    · exact h

/-- Every character the decimal converter emits is a digit. -/
theorem natDecAux_digits (fuel n : Nat) : ∀ c ∈ natDecAux fuel n, c.isDigit = true := by
  induction fuel generalizing n with
  | zero => intro c hc; simp [natDecAux] at hc
  | succ f ih =>
    intro c hc
    by_cases h : n < 10
    · simp only [natDecAux, if_pos h, List.mem_singleton] at hc
      subst hc
      rw [isDigitToNat, charToNatOfNat _ (by omega)]
      omega
    · simp only [natDecAux, if_neg h, List.mem_append, List.mem_singleton] at hc
      rcases hc with hc | hc
      · exact ih _ _ hc
      · subst hc
        have hm : n % 10 < 10 := Nat.mod_lt n (by omega)
        rw [isDigitToNat, charToNatOfNat _ (by omega)]
        omega

/-- The decimal converter emits at least k+1 digits for numbers of at
least 10^k. -/
theorem natDecAux_len (fuel : Nat) : ∀ n k : Nat, n ≤ fuel → 10 ^ k ≤ n →
    k + 1 ≤ (natDecAux fuel n).length := by
  induction fuel with
  | zero =>
    intro n k hfuel h
    have h1 : 1 ≤ 10 ^ k := Nat.one_le_pow _ _ (by omega)
    omega
  | succ f ih =>
    intro n k hfuel h
    by_cases h10 : n < 10
    · cases k with
      | zero => simp [natDecAux, h10]
      | succ k2 =>
        exfalso
        have h1 : 10 ≤ 10 ^ (k2 + 1) := by
          calc (10 : Nat) = 10 ^ 1 := by norm_num
          _ ≤ 10 ^ (k2 + 1) := Nat.pow_le_pow_right (by omega) (by omega)
        omega
    · simp only [natDecAux, if_neg h10, List.length_append, List.length_singleton]
      cases k with
      | zero => omega
      | succ k2 =>
        have hdiv : n / 10 ≤ f := by
          have hdl : n / 10 < n := Nat.div_lt_self (by omega) (by omega)
          omega
        have hpow : 10 ^ k2 ≤ n / 10 := by
          rw [Nat.le_div_iff_mul_le (by omega)]
          calc 10 ^ k2 * 10 = 10 ^ (k2 + 1) := by rw [Nat.pow_succ]
          _ ≤ n := h
        have := ih (n / 10) k2 hdiv hpow
        omega

/-- Every character of the collapsed whitespace form is either the
replacement hyphen or a non-whitespace character of the input. -/
theorem collapseWsAux_mem (l : List Char) : ∀ (b : Bool) (c : Char), c ∈ collapseWsAux b l →
    c = '-' ∨ (c ∈ l ∧ isWsJS c = false) := by
  induction l with
  | nil =>
    intro b c hc
    simp [collapseWsAux] at hc
  | cons x t ih =>
    intro b c hc
    cases b with
    | true =>
      by_cases hx : isWsJS x = true
      · rw [show collapseWsAux true (x :: t) = collapseWsAux true t by
          simp [collapseWsAux, hx]] at hc
        rcases ih true c hc with h | ⟨hm, hw⟩
        · exact Or.inl h
        · exact Or.inr ⟨List.mem_cons_of_mem _ hm, hw⟩
      · rw [show collapseWsAux true (x :: t) = x :: collapseWsAux false t by
          simp [collapseWsAux, hx]] at hc
        rcases List.mem_cons.mp hc with rfl | hc2
        · refine Or.inr ⟨List.mem_cons_self _ _, ?_⟩
          simpa using hx
        · rcases ih false c hc2 with h | ⟨hm, hw⟩
          · exact Or.inl h
          · exact Or.inr ⟨List.mem_cons_of_mem _ hm, hw⟩
    | false =>
      by_cases hx : isWsJS x = true
      · rw [show collapseWsAux false (x :: t) = '-' :: collapseWsAux true t by
          simp [collapseWsAux, hx]] at hc
        rcases List.mem_cons.mp hc with rfl | hc2
        · exact Or.inl rfl
        · rcases ih true c hc2 with h | ⟨hm, hw⟩
          · exact Or.inl h
          · exact Or.inr ⟨List.mem_cons_of_mem _ hm, hw⟩
      · rw [show collapseWsAux false (x :: t) = x :: collapseWsAux false t by
          simp [collapseWsAux, hx]] at hc
        rcases List.mem_cons.mp hc with rfl | hc2
        · refine Or.inr ⟨List.mem_cons_self _ _, ?_⟩
          simpa using hx
        · rcases ih false c hc2 with h | ⟨hm, hw⟩
          · exact Or.inl h
          · exact Or.inr ⟨List.mem_cons_of_mem _ hm, hw⟩

/-- A string made of a slug body, a hyphen and six digits matches the
documented slug format. -/
theorem slugFormat_of_shape (body sfx : List Char)
    (hb : ∀ c ∈ body, slugBodyChar c = true)
    (hs : ∀ c ∈ sfx, c.isDigit = true)
    (hlen : sfx.length = 6) :
    slugFormat (String.mk (body ++ '-' :: sfx)) = true := by
  have hn : (body ++ '-' :: sfx).length = body.length + 7 := by
    simp [List.length_append, hlen]
  show (decide (7 ≤ (body ++ '-' :: sfx).length) &&
      (match (body ++ '-' :: sfx).drop ((body ++ '-' :: sfx).length - 7) with
       | '-' :: ds => decide (ds.length = 6) && ds.all Char.isDigit
          && ((body ++ '-' :: sfx).take ((body ++ '-' :: sfx).length - 7)).all slugBodyChar
       | _ => false)) = true
  have hc7 : (body ++ '-' :: sfx).length - 7 = body.length := by omega
  rw [hc7, List.drop_left, List.take_left]
  simp only [Bool.and_eq_true, decide_eq_true_eq, List.all_eq_true]
  exact ⟨by omega, ⟨⟨hlen, hs⟩, hb⟩⟩

/-- Appending the hyphen and suffix at the string level is appending at
the character level. -/
theorem mkAppendHyphen (b : List Char) (t : String) :
    String.mk b ++ "-" ++ t = String.mk (b ++ '-' :: t.data) := by
  cases t with
  | mk td =>
    show String.mk ((b ++ ['-']) ++ td) = String.mk (b ++ '-' :: td)
    rw [List.append_assoc]
    rfl

/-- The generated practice id always matches the documented slug format
once the timestamp has at least six decimal digits, which holds for every
real Date.now() value. -/
theorem slugFormat_generatePracticeId (companyName : String) (now : Nat)
    (hnow : 100000 ≤ now) :
    slugFormat (generatePracticeId companyName now) = true := by
  unfold generatePracticeId
  rw [mkAppendHyphen]
  apply slugFormat_of_shape
  · intro c hc
    have hc2 := List.take_subset _ _ hc
    rcases collapseWsAux_mem _ false c hc2 with rfl | ⟨hm, hw⟩
    · decide
    · rw [List.mem_filter] at hm
      obtain ⟨hmem, hkeep⟩ := hm
      rw [List.mem_map] at hmem
      obtain ⟨x, _, rfl⟩ := hmem
      unfold keepSlugChar at hkeep
      unfold slugBodyChar
      simp only [Bool.or_eq_true] at hkeep ⊢
      rcases hkeep with (ha | hd) | hws
      · exact Or.inl (Or.inl (lower_of_toLower_alpha x ha))
      · exact Or.inl (Or.inr hd)
      · rw [hw] at hws
        simp at hws
  · intro c hc
    exact natDecAux_digits _ _ c (List.drop_subset _ _ hc)
  · show ((natDecAux (now + 1) now).drop ((natDecAux (now + 1) now).length - 6)).length = 6
    have h5 : 10 ^ 5 ≤ now := by
      calc (10 : Nat) ^ 5 = 100000 := by norm_num
      _ ≤ now := hnow
    have h6 : 6 ≤ (natDecAux (now + 1) now).length := natDecAux_len (now + 1) now 5 (by omega) h5
    rw [List.length_drop]
    omega

/-- C8 (amended): on the real-data path the scraped record always has a
non-empty company and a practiceId matching the documented slug format
(lowercase alphanumeric-and-hyphen body, hyphen, six-digit time suffix);
on the fallback path the company is still non-empty, but the practiceId is
the scheme-stripped alphanumeric truncation of the URL without the time
suffix, so it need not match the slug format. -/
theorem scrape_company_and_practiceId (url : String) (now : Nat) (nowIso : String)
    (exaData : ExaData) (e : String) (hnow : 100000 ≤ now) :
    (scrapeHealthcarePractice url now nowIso (.ok exaData)).company.getD "" ≠ "" ∧
    slugFormat ((scrapeHealthcarePractice url now nowIso (.ok exaData)).practiceId.getD "")
      = true ∧
    (scrapeHealthcarePractice url now nowIso (.error e)).company.getD "" ≠ "" := by
  refine ⟨?_, ?_, ?_⟩
  · show jsOr exaData.company (extractCompanyFromUrl (urlHostname url)) ≠ ""
    exact jsOr_ne_empty _ _ (extractCompanyFromUrl_ne_empty _)
  · show slugFormat (generatePracticeId
      (jsOr exaData.company (extractCompanyFromUrl (urlHostname url))) now) = true
    exact slugFormat_generatePracticeId _ _ hnow
  · show extractCompanyFromUrl (urlHostname url) ≠ ""
    exact extractCompanyFromUrl_ne_empty _

/-- Witness for C8 at a concrete URL and timestamp. -/
theorem scrape_company_and_practiceId_witness :
    100000 ≤ 123456 ∧
    slugFormat ((scrapeHealthcarePractice "https://acme.com" 123456 "T"
      (.ok (basicContentAnalysis "https://acme.com"))).practiceId.getD "") = true :=
  ⟨by decide, (scrape_company_and_practiceId "https://acme.com" 123456 "T"
    (basicContentAnalysis "https://acme.com") "boom" (by decide)).2.1⟩

set_option maxRecDepth 4000 in
/-- C8 counterexample to the claim as stated: on the fallback path of the
scrape for the scenario URL, the practiceId is the 20-character
alphanumeric truncation of the URL, which does not match the slug
format. -/
theorem scrapeFallback_practiceId_not_slug :
    (scrapeHealthcarePractice "https://drsmith-dental.example.com" 123456 "T"
      (.error "boom")).practiceId = some "drsmithdentalexample" ∧
    slugFormat "drsmithdentalexample" = false := by
  refine ⟨by decide, by decide⟩

end HealthcareAgent
